import Mathlib

/-!
Shallow embedding of the discovery, configuration and build logic of
`setup.py` (PyQ).  Filesystem state is passed explicitly as an
`isdir : String → Bool` predicate, the process environment as an
`env : String → Option String` map, and the stdout of the external
introspection tools (`ldd`, `ldconfig -p`, `otool -L`) as lists of lines.
Fallible Python code (functions that may raise) is embedded as
`Except PyErr α`.
-/

/-- Errors raised by the embedded Python code. -/
inductive PyErr where
  /-- `raise RuntimeError(msg)` -/
  | runtimeError (msg : String)
  /-- `env[key]` on a missing key -/
  | keyError (key : String)
  /-- `open(path)` on a missing file -/
  | ioError (path : String)
  /-- an out-of-range subscript such as `line.split()[2]` -/
  | indexError
deriving DecidableEq

/-- `os.path.join(a, b)` for a POSIX path `a` not ending in a separator. -/
def joinPath (a b : String) : String := a ++ "/" ++ b

/-- Python `s.split(sep)` for a one-character separator, over char lists:
splits on every occurrence and keeps empty pieces
(`"10.".split('.') == ["10", ""]`).  Always returns a nonempty list. -/
def splitOnChar (c : Char) : List Char → List (List Char)
  | [] => [[]]
  | x :: xs =>
    match splitOnChar c xs with
    | [] => [[]]
    | y :: ys => if x = c then [] :: y :: ys else (x :: y) :: ys

/-- Helper for `pySplit`: accumulates the current (reversed) token. -/
def splitWSAux : List Char → List Char → List (List Char)
  | [], acc => if acc.isEmpty then [] else [acc.reverse]
  | c :: cs, acc =>
    if c.isWhitespace then
      if acc.isEmpty then splitWSAux cs [] else acc.reverse :: splitWSAux cs []
    else splitWSAux cs (c :: acc)

/-- Python `s.split()` (no argument): split on runs of whitespace, dropping
empty tokens. -/
def pySplit (s : String) : List String :=
  (splitWSAux s.data []).map String.mk

/-- Python `pat in s` (substring containment), over char lists. -/
def containsSub (pat : List Char) : List Char → Bool
  | [] => List.isPrefixOf pat []
  | c :: cs => List.isPrefixOf pat (c :: cs) || containsSub pat cs

/-- Python `s.replace(pat, rep)` for the nonempty pattern `p :: ps`
(all non-overlapping occurrences, left to right), over char lists. -/
def replaceAll (p : Char) (ps rep : List Char) : List Char → List Char
  | [] => []
  | c :: cs =>
    if List.isPrefixOf (p :: ps) (c :: cs) then
      rep ++ replaceAll p ps rep (cs.drop ps.length)
    else
      c :: replaceAll p ps rep cs
termination_by l => l.length
decreasing_by
  · simp only [List.length_drop, List.length_cons]
    omega
  · simp

/-- The loop body of `get_q_home`: `for v in ['VIRTUAL_ENV', 'HOME']`,
take `prefix = env.get(v)`; when truthy, probe `os.path.join(prefix, 'q')`
and return it when it is a directory. -/
def q_home_from_prefixes (env : String → Option String) (isdir : String → Bool) :
    List String → Option String
  | [] => none
  | v :: vs =>
    let pfx := (env v).getD ""
    if pfx ≠ "" then
      if isdir (joinPath pfx "q") then some (joinPath pfx "q")
      else q_home_from_prefixes env isdir vs
    else q_home_from_prefixes env isdir vs

/-- `get_q_home(env)`: QHOME when truthy; else the first existing
`<prefix>/q` for VIRTUAL_ENV then HOME; else, on Windows,
`os.path.join(env['SystemDrive'], r'\q')` (which is `<drive>\q` for a bare
drive letter) when it is a directory; else
`raise RuntimeError('No suitable QHOME.')`. -/
def get_q_home (windows : Bool) (env : String → Option String)
    (isdir : String → Bool) : Except PyErr String :=
  let q_home := (env "QHOME").getD ""
  if q_home ≠ "" then .ok q_home
  else
    match q_home_from_prefixes env isdir ["VIRTUAL_ENV", "HOME"] with
    | some h => .ok h
    | none =>
      if windows then
        match env "SystemDrive" with
        | none => .error (.keyError "SystemDrive")
        | some d =>
          if isdir (d ++ "\\q") then .ok (d ++ "\\q")
          else .error (.runtimeError "No suitable QHOME.")
      else .error (.runtimeError "No suitable QHOME.")

/-- `get_q_os_letter(sysname, machine)`; the error message of the source
really does begin with a stray double quote. -/
def get_q_os_letter (sysname machine : String) : Except PyErr String :=
  if sysname = "Linux" then .ok "l"
  else if sysname = "SunOS" then (if machine = "i86pc" then .ok "v" else .ok "s")
  else if sysname = "Darwin" then .ok "m"
  else if sysname = "Windows" then .ok "w"
  else .error (.runtimeError
    ("\"Unknown platform: " ++ sysname ++ " " ++ machine ++ "."))

/-- `get_q_arch(q_home)`: `bits = (sys.maxsize + 1).bit_length()`; on a
64-bit host, downgrade to 32 when `<q_home>/<letter>64` is not a
directory; result is `'%s%d' % (os_letter, bits)`. -/
def get_q_arch (sysname machine : String) (maxsize : Nat) (q_home : String)
    (isdir : String → Bool) : Except PyErr String :=
  let bits := Nat.size (maxsize + 1)
  match get_q_os_letter sysname machine with
  | .error e => .error e
  | .ok os_letter =>
    let bits' :=
      if bits = 64 ∧ ¬ isdir (joinPath q_home (os_letter ++ "64")) then 32
      else bits
    .ok (os_letter ++ toString bits')

/-- The scanning loop of `get_q_version`: first line beginning with `k:`
yields `line[2:5]` (Python slices by code point); otherwise the loop falls
through and `'2.2'` is returned. -/
def q_version_scan : List String → String
  | [] => "2.2"
  | l :: ls =>
    if List.isPrefixOf "k:".data l.data then String.mk ((l.data.drop 2).take 3)
    else q_version_scan ls

/-- `get_q_version(q_home)`: `open(os.path.join(q_home, 'q.k'))` raises
when the file is absent (modelled as `qk = none`); otherwise the lines are
scanned. -/
def get_q_version (qk : Option (List String)) : Except PyErr String :=
  match qk with
  | none => .error (.ioError "q.k")
  | some lines => .ok (q_version_scan lines)

/-- `get_python_dll(executable)`.  The stdout of each external tool is an
input (`lddOut` for `ldd`, `ldconfigOut` for `ldconfig -p`, `otoolOut` for
`otool -L`, each already split into lines), `execDir` stands for
`os.path.dirname(executable)`, and `pyMajor`/`pyMinor` for
`sys.version_info[:2]`.  The final `raise RuntimeError('no python dll')`
is reached both when the Linux/SunOS (or Darwin) scans find nothing and
when the OS matches no branch. -/
def get_python_dll (sysname : String) (pyMajor pyMinor : Nat)
    (execDir : String) (lddOut ldconfigOut otoolOut : List String) :
    Except PyErr String :=
  if List.isPrefixOf "Linux".data sysname.data ∨
      List.isPrefixOf "SunOS".data sysname.data then
    match lddOut.find? (fun l => containsSub "libpython".data l.data) with
    | some line =>
      match (pySplit line)[2]? with
      | some w => .ok w
      | none => .error .indexError
    | none =>
      match ldconfigOut.find? (fun l => containsSub ("libpython" ++
        toString pyMajor ++ "." ++ toString pyMinor).data l.data) with
      | some line =>
        match (pySplit line).getLast? with
        | some w => .ok w
        | none => .error .indexError
      | none => .error (.runtimeError "no python dll")
  else if sysname = "Darwin" then
    match otoolOut.find? (fun l => containsSub "Python".data l.data) with
    | some line =>
      match (pySplit line)[0]? with
      | some w =>
        .ok (String.mk
          (replaceAll '@' "executable_path".data execDir.data w.data))
      | none => .error .indexError
    | none => .error (.runtimeError "no python dll")
  else if sysname = "Windows" then
    .ok ("python" ++ toString pyMajor ++ toString pyMinor ++ ".dll")
  else .error (.runtimeError "no python dll")

/-- `SETUP_CFG.format(**vars(self))`: the persisted configuration text. -/
def setup_cfg (q_home q_version q_arch python_dll : String) : String :=
  "[config]\nq_home = " ++ q_home ++ "\nq_version = " ++ q_version ++
    "\nq_arch = " ++ q_arch ++ "\npython_dll = " ++ python_dll ++ "\n"

/-- The finalized option state of the `config` command. -/
structure ConfigOpts where
  q_home : String
  q_version : String
  q_arch : String
  python_dll : String
  dest : String
  write : Bool
deriving DecidableEq

/-- `Config.run`: formats `SETUP_CFG` from the finalized options and, when
`--write` is set, writes it to `dest`; it assigns to no attribute, so the
option state is returned unchanged, paired with the optional
(destination, contents) file write. -/
def config_run (c : ConfigOpts) : ConfigOpts × Option (String × String) :=
  (c, if c.write then
        some (c.dest, setup_cfg c.q_home c.q_version c.q_arch c.python_dll)
      else none)

/-- Modelled from the spec: a reader of the persisted `key = value` file
looks for the first line beginning with `<key> = ` and takes the rest of
that line as the value. -/
def cfg_lookup (key : String) (content : String) : Option String :=
  ((splitOnChar '\n' content.data).find?
      (fun l => List.isPrefixOf (key.data ++ " = ".data) l)).map
    (fun l => String.mk (l.drop (key.data.length + " = ".data.length)))

/-- `BuildQExt.finalize_options` macro computation:
`split_version = self.q_version.split('.')`, then
`[('KXVER', split_version[0]), ('KXVER2', split_version[1])]`
(an `IndexError` when the version has no dot). -/
def buildQExt_define (q_version : String) : Except PyErr (List (String × String)) :=
  let split_version := (splitOnChar '.' q_version.data).map String.mk
  match split_version[0]?, split_version[1]? with
  | some a, some b => .ok [("KXVER", a), ("KXVER2", b)]
  | _, _ => .error .indexError

/-- `BuildExe.finalize_options` macro computation:
`[('KXVER', self.q_version[0]), ('QARCH', self.q_arch)]`
(an `IndexError` when the version is empty; `q_version[0]` is the first
character, not the dot-major). -/
def buildExe_define (q_version q_arch : String) :
    Except PyErr (List (String × String)) :=
  match q_version.data with
  | [] => .error .indexError
  | c :: _ => .ok [("KXVER", String.mk [c]), ("QARCH", q_arch)]

/-- The dot-separated first component of a version token (its major
component, in the words of the spec). -/
def versionMajor (v : String) : String :=
  String.mk ((splitOnChar '.' v.data).headD [])

/-- `InstallExe.run` POSIX permission fix:
`mode = (os.stat(file)[ST_MODE] | 0o555) & 0o7777`. -/
def install_exe_mode_fix (mode : Nat) : Nat := (mode ||| 0o555) &&& 0o7777

/-- `BuildQExt.run` output file name:
`ext.name + ('.dll' if WINDOWS else '.so')` (joined under `build_lib`). -/
def qext_output_name (windows : Bool) (name : String) : String :=
  name ++ (if windows then ".dll" else ".so")

/-- `splitOnChar` never returns the empty list. -/
lemma splitOnChar_ne_nil (c : Char) (l : List Char) : splitOnChar c l ≠ [] := by
  cases l with
  | nil => simp [splitOnChar]
  | cons x xs =>
    unfold splitOnChar
    cases splitOnChar c xs with
    | nil => simp
    | cons y ys =>
      by_cases h : x = c <;> simp [h]

/-- Unfolding equation of `splitOnChar` for a cons. -/
lemma splitOnChar_cons (c x : Char) (xs : List Char) :
    splitOnChar c (x :: xs) =
      if x = c then [] :: splitOnChar c xs
      else (x :: (splitOnChar c xs).headD []) :: (splitOnChar c xs).tail := by
  cases hs : splitOnChar c xs with
  | nil => exact absurd hs (splitOnChar_ne_nil c xs)
  | cons y ys => by_cases hx : x = c <;> simp [splitOnChar, hs, hx]

/-- Splitting at an explicit separator after a separator-free segment. -/
lemma splitOnChar_append_sep (c : Char) (l₁ l₂ : List Char) (h : c ∉ l₁) :
    splitOnChar c (l₁ ++ c :: l₂) = l₁ :: splitOnChar c l₂ := by
  induction l₁ with
  | nil =>
    rw [List.nil_append, splitOnChar_cons]
    simp
  | cons x xs ih =>
    have hx : x ≠ c := by
      intro hxc
      exact h (hxc ▸ List.mem_cons_self x xs)
    have hxs : c ∉ xs := fun hm => h (List.mem_cons_of_mem x hm)
    rw [List.cons_append, splitOnChar_cons, ih hxs]
    simp [hx]

/-- Splitting a separator-free segment. -/
lemma splitOnChar_no_sep (c : Char) (l : List Char) (h : c ∉ l) :
    splitOnChar c l = [l] := by
  induction l with
  | nil => simp [splitOnChar]
  | cons x xs ih =>
    have hx : x ≠ c := by
      intro hxc
      exact h (hxc ▸ List.mem_cons_self x xs)
    have hxs : c ∉ xs := fun hm => h (List.mem_cons_of_mem x hm)
    rw [splitOnChar_cons, ih hxs]
    simp [hx]

/-- Any list is a `List.isPrefixOf` of itself followed by anything. -/
lemma isPrefixOf_append_self (l₁ l₂ : List Char) :
    List.isPrefixOf l₁ (l₁ ++ l₂) = true := by
  induction l₁ with
  | nil => simp [List.isPrefixOf]
  | cons x xs ih => simp [List.isPrefixOf, ih]

/-- Left cancellation for string append. -/
lemma string_append_left_cancel (s t u : String) (h : s ++ t = s ++ u) :
    t = u := by
  have hd : (s ++ t).data = (s ++ u).data := by rw [h]
  rw [String.data_append, String.data_append] at hd
  exact String.ext (List.append_cancel_left hd)

/-- Boolean shape of the idempotence argument for the mode fix. -/
lemma or_and_bool_absorb (a b c : Bool) (h : b = true → c = true) :
    (((a || b) && c || b) && c) = ((a || b) && c) := by
  revert h
  cases a <;> cases b <;> cases c <;> decide

/-- C8: the POSIX installer permission fix computes
`(mode | 0o555) & 0o7777` and is idempotent. -/
theorem installExe_mode_fix_idempotent (m : Nat) :
    install_exe_mode_fix (install_exe_mode_fix m) = install_exe_mode_fix m := by
  unfold install_exe_mode_fix
  apply Nat.eq_of_testBit_eq
  intro i
  simp only [Nat.testBit_land, Nat.testBit_lor]
  have h365 : Nat.testBit 365 i = true → Nat.testBit 4095 i = true := by
    intro h
    have hand : (365 &&& 4095 : Nat) = 365 := by decide
    have h1 : Nat.testBit (365 &&& 4095) i = Nat.testBit 365 i := by rw [hand]
    rw [Nat.testBit_land, h] at h1
    simpa using h1
  exact or_and_bool_absorb (m.testBit i) (Nat.testBit 365 i)
    (Nat.testBit 4095 i) h365

/-- C9: the runtime-extension builder names its output
`<name>.dll` on Windows and `<name>.so` on every other platform. -/
theorem buildQExt_output_name_spec (b : Bool) (n : String) :
    qext_output_name true n = n ++ ".dll" ∧
      qext_output_name false n = n ++ ".so" ∧
      qext_output_name b n = n ++ (if b then ".dll" else ".so") :=
  ⟨rfl, rfl, rfl⟩

/-- C10: when QHOME is set to a nonempty string, `get_q_home` returns it
unconditionally, for every filesystem (in particular one on which no
directory exists at all), so a nonexistent QHOME path is passed
downstream rather than raising. -/
theorem get_q_home_qhome_unchecked (windows : Bool)
    (env : String → Option String) (isdir : String → Bool) (q : String)
    (hq : env "QHOME" = some q) (hne : q ≠ "") :
    get_q_home windows env isdir = .ok q := by
  unfold get_q_home
  rw [hq]
  simp [hne]

/-- Witness for C10: a QHOME value returned even though the filesystem
reports no directory anywhere. -/
theorem get_q_home_qhome_unchecked_witness :
    get_q_home false
      (fun k => if k = "QHOME" then some "/nonexistent/qhome" else none)
      (fun _ => false) = .ok "/nonexistent/qhome" :=
  get_q_home_qhome_unchecked false _ _ "/nonexistent/qhome" (by decide)
    (by decide)

/-- C4: `get_q_os_letter` maps Linux to `l`, SunOS/i86pc to `v`, other
SunOS to `s`, Darwin to `m`, Windows to `w`; every successful result is
one of those five letters, and every other (OS, machine) pair yields the
unsupported-platform `RuntimeError`. -/
theorem get_q_os_letter_spec (sysname machine : String) :
    (sysname = "Linux" → get_q_os_letter sysname machine = .ok "l") ∧
    (sysname = "SunOS" → machine = "i86pc" →
      get_q_os_letter sysname machine = .ok "v") ∧
    (sysname = "SunOS" → machine ≠ "i86pc" →
      get_q_os_letter sysname machine = .ok "s") ∧
    (sysname = "Darwin" → get_q_os_letter sysname machine = .ok "m") ∧
    (sysname = "Windows" → get_q_os_letter sysname machine = .ok "w") ∧
    (∀ c, get_q_os_letter sysname machine = .ok c →
      c ∈ (["l", "v", "s", "m", "w"] : List String)) ∧
    (sysname ≠ "Linux" → sysname ≠ "SunOS" → sysname ≠ "Darwin" →
      sysname ≠ "Windows" →
      get_q_os_letter sysname machine = .error (.runtimeError
        ("\"Unknown platform: " ++ sysname ++ " " ++ machine ++ "."))) := by
  refine ⟨?_, ?_, ?_, ?_, ?_, ?_, ?_⟩
  · intro h; simp [get_q_os_letter, h]
  · intro h1 h2; simp [get_q_os_letter, h1, h2]
  · intro h1 h2; simp [get_q_os_letter, h1, h2]
  · intro h; simp [get_q_os_letter, h]
  · intro h; simp [get_q_os_letter, h]
  · intro c h
    unfold get_q_os_letter at h
    split_ifs at h <;> simp_all
  · intro h1 h2 h3 h4; simp [get_q_os_letter, h1, h2, h3, h4]

/-- Witness for C4: concrete supported and unsupported platforms. -/
theorem get_q_os_letter_spec_witness :
    get_q_os_letter "Linux" "x86_64" = .ok "l" ∧
    get_q_os_letter "SunOS" "sun4u" = .ok "s" ∧
    get_q_os_letter "FreeBSD" "amd64" = .error (.runtimeError
      ("\"Unknown platform: " ++ "FreeBSD" ++ " " ++ "amd64" ++ ".")) :=
  ⟨(get_q_os_letter_spec "Linux" "x86_64").1 rfl,
   (get_q_os_letter_spec "SunOS" "sun4u").2.2.1 rfl (by decide),
   (get_q_os_letter_spec "FreeBSD" "amd64").2.2.2.2.2.2
     (by decide) (by decide) (by decide) (by decide)⟩

/-- C1 counterexample: when `q.k` is absent, `get_q_version` raises the
file-open error instead of returning `"2.2"`. -/
theorem get_q_version_absent_counterexample :
    get_q_version none = .error (.ioError "q.k") ∧
      get_q_version none ≠ .ok "2.2" :=
  ⟨rfl, by simp [get_q_version]⟩

/-- Unfolding equation of `q_version_scan` for a cons. -/
lemma q_version_scan_cons (l : String) (ls : List String) :
    q_version_scan (l :: ls) =
      if List.isPrefixOf "k:".data l.data then
        String.mk ((l.data.drop 2).take 3)
      else q_version_scan ls := rfl

/-- Helper: the scan returns the default when no line has the `k:`
prefix. -/
lemma q_version_scan_no_match (lines : List String)
    (h : ∀ l ∈ lines, List.isPrefixOf "k:".data l.data = false) :
    q_version_scan lines = "2.2" := by
  induction lines with
  | nil => rfl
  | cons l ls ih =>
    rw [q_version_scan_cons, if_neg (by simp [h l (List.mem_cons_self l ls)])]
    exact ih (fun l' hl' => h l' (List.mem_cons_of_mem l hl'))

/-- Helper: the scan returns the slice of the first matching line. -/
lemma q_version_scan_first (pre : List String) (l : String) (post : List String)
    (hpre : ∀ l' ∈ pre, List.isPrefixOf "k:".data l'.data = false)
    (hl : List.isPrefixOf "k:".data l.data = true) :
    q_version_scan (pre ++ l :: post) = String.mk ((l.data.drop 2).take 3) := by
  induction pre with
  | nil =>
    rw [List.nil_append, q_version_scan_cons, if_pos hl]
  | cons p ps ih =>
    rw [List.cons_append, q_version_scan_cons,
      if_neg (by simp [hpre p (List.mem_cons_self p ps)])]
    exact ih (fun l' hl' => hpre l' (List.mem_cons_of_mem p hl'))

/-- C1 amended: `get_q_version` fails with the file-open error when `q.k`
is absent; when the file exists it returns `line[2:5]` of the first line
beginning with `k:`, and `"2.2"` when no line does. -/
theorem get_q_version_spec :
    (get_q_version none = .error (.ioError "q.k")) ∧
    (∀ lines, (∀ l ∈ lines, List.isPrefixOf "k:".data l.data = false) →
      get_q_version (some lines) = .ok "2.2") ∧
    (∀ pre l post,
      (∀ l' ∈ pre, List.isPrefixOf "k:".data l'.data = false) →
      List.isPrefixOf "k:".data l.data = true →
      get_q_version (some (pre ++ l :: post)) =
        .ok (String.mk ((l.data.drop 2).take 3))) := by
  refine ⟨rfl, ?_, ?_⟩
  · intro lines h
    simp only [get_q_version]
    rw [q_version_scan_no_match lines h]
  · intro pre l post hpre hl
    simp only [get_q_version]
    rw [q_version_scan_first pre l post hpre hl]

/-- Witness for C1: a synthetic `q.k` whose first `k:` line is
`k:3.6 2018.05.17` yields the token `3.6`; a file without a `k:` line
yields `2.2`. -/
theorem get_q_version_spec_witness :
    get_q_version (some ["/ q.k", "k:3.6 2018.05.17"]) = .ok "3.6" ∧
    get_q_version (some ["/ nothing here"]) = .ok "2.2" := by
  constructor
  · have h := get_q_version_spec.2.2 ["/ q.k"] "k:3.6 2018.05.17" []
      (by decide) (by decide)
    simp only [List.cons_append, List.nil_append] at h
    rw [h]
    exact congrArg Except.ok (by decide)
  · exact get_q_version_spec.2.1 ["/ nothing here"] (by decide)

/-- C3: on a host whose pointer width is 32 or 64 bits, when the
`<letter>64` subdirectory is absent from the runtime home,
`get_q_arch` never returns the 64-bit code, and on a 64-bit host it
returns the 32-bit code `<letter>32`. -/
theorem get_q_arch_no64_downgrade (sysname machine : String) (maxsize : Nat)
    (q_home : String) (isdir : String → Bool) (osl : String)
    (hm : maxsize = 2 ^ 31 - 1 ∨ maxsize = 2 ^ 63 - 1)
    (ho : get_q_os_letter sysname machine = .ok osl)
    (hd : isdir (joinPath q_home (osl ++ "64")) = false) :
    get_q_arch sysname machine maxsize q_home isdir ≠ .ok (osl ++ "64") ∧
    (maxsize = 2 ^ 63 - 1 →
      get_q_arch sysname machine maxsize q_home isdir = .ok (osl ++ "32")) := by
  have hne : osl ++ "32" ≠ osl ++ "64" := by
    intro h
    have := string_append_left_cancel osl "32" "64" h
    exact absurd this (by decide)
  rcases hm with hm | hm
  · have hbits : Nat.size (maxsize + 1) = 32 := by
      rw [hm]
      have h : (2 : Nat) ^ 31 - 1 + 1 = 2 ^ 31 := by norm_num
      rw [h, Nat.size_pow]
    have harch : get_q_arch sysname machine maxsize q_home isdir =
        .ok (osl ++ "32") := by
      unfold get_q_arch
      rw [ho, hbits]
      norm_num
      exact congrArg (osl ++ .) (by decide)
    refine ⟨?_, ?_⟩
    · rw [harch]
      intro h
      exact hne (Except.ok.inj h ▸ rfl)
    · intro h64
      exact harch
  · have hbits : Nat.size (maxsize + 1) = 64 := by
      rw [hm]
      have h : (2 : Nat) ^ 63 - 1 + 1 = 2 ^ 63 := by norm_num
      rw [h, Nat.size_pow]
    have harch : get_q_arch sysname machine maxsize q_home isdir =
        .ok (osl ++ "32") := by
      unfold get_q_arch
      rw [ho, hbits]
      simp only [hd, Bool.false_eq_true, not_false_eq_true, and_true, if_pos]
      exact congrArg (fun s => Except.ok (osl ++ s) : String → Except PyErr String) (by decide)
    refine ⟨?_, fun _ => harch⟩
    rw [harch]
    intro h
    exact hne (Except.ok.inj h ▸ rfl)

/-- Witness for C3: 64-bit Linux host, no `l64` directory under the
runtime home, so the platform code downgrades to `l32`. -/
theorem get_q_arch_no64_downgrade_witness :
    get_q_arch "Linux" "x86_64" (2 ^ 63 - 1) "/home/u/q" (fun _ => false) =
      .ok ("l" ++ "32") :=
  (get_q_arch_no64_downgrade "Linux" "x86_64" (2 ^ 63 - 1) "/home/u/q"
    (fun _ => false) "l" (Or.inr rfl) rfl rfl).2 rfl

/-- C6 counterexample: the token `10.` is discoverable (a `q.k` line
`k:10.1 ...` slices to it); on it the runtime-extension builder's KXVER is
the dot-major `10`, but the executable builder's KXVER is the first
character `1`, which is not the major component. -/
theorem kxver_define_counterexample :
    get_q_version (some ["k:10.1 2099.01.01"]) = .ok "10." ∧
    buildQExt_define "10." = .ok [("KXVER", "10"), ("KXVER2", "")] ∧
    buildExe_define "10." "l64" = .ok [("KXVER", "1"), ("QARCH", "l64")] ∧
    versionMajor "10." = "10" ∧
    ("1" : String) ≠ "10" := by
  refine ⟨?_, ?_, ?_, by decide, by decide⟩
  · exact congrArg Except.ok (by decide)
  · show Except.ok _ = _
    exact congrArg Except.ok (by decide)
  · exact congrArg Except.ok (by decide)

/-- C6 amended: for every nonempty version token, BuildQExt's macro list
heads with KXVER bound to the dot-major of the token, while BuildExe's
KXVER is the token's first character; the two agree exactly when the major
component is a single character. -/
theorem kxver_define_spec (v a : String) (c : Char) (cs : List Char)
    (hv : v.data = c :: cs) :
    (∀ defs, buildQExt_define v = .ok defs →
      defs.head? = some ("KXVER", versionMajor v)) ∧
    buildExe_define v a = .ok [("KXVER", String.mk [c]), ("QARCH", a)] ∧
    ((versionMajor v).data.length = 1 → versionMajor v = String.mk [c]) := by
  refine ⟨?_, ?_, ?_⟩
  · intro defs hdefs
    unfold buildQExt_define at hdefs
    cases hs : splitOnChar '.' v.data with
    | nil => exact absurd hs (splitOnChar_ne_nil '.' v.data)
    | cons y ys =>
      rw [hs] at hdefs
      unfold versionMajor
      rw [hs]
      cases ys with
      | nil => simp at hdefs
      | cons z zs =>
        simp only [List.map_cons, List.getElem?_cons_zero,
          List.getElem?_cons_succ] at hdefs
        cases hdefs_eq : hdefs
        simp
  · unfold buildExe_define
    rw [hv]
  · intro hlen
    unfold versionMajor at *
    rw [hv] at *
    rw [splitOnChar_cons] at *
    by_cases hc : c = '.'
    · rw [if_pos hc] at hlen
      simp at hlen
    · rw [if_neg hc] at hlen ⊢
      simp only [List.headD_cons] at hlen ⊢
      cases hh : (splitOnChar '.' cs).headD [] with
      | nil => simp [hh]
      | cons d ds =>
        rw [hh] at hlen
        simp at hlen

/-- Witness for C6: on the single-digit-major token `3.6` both builders
agree, and BuildQExt's KXVER is the major. -/
theorem kxver_define_spec_witness :
    buildExe_define "3.6" "l64" =
      .ok [("KXVER", String.mk ['3']), ("QARCH", "l64")] ∧
    [("KXVER", "3"), ("KXVER2", "6")].head? =
      some ("KXVER", versionMajor "3.6") :=
  ⟨(kxver_define_spec "3.6" "l64" '3' ['.', '6'] (by decide)).2.1,
   (kxver_define_spec "3.6" "l64" '3' ['.', '6'] (by decide)).1
     [("KXVER", "3"), ("KXVER2", "6")]
     (congrArg Except.ok (by decide))⟩

/-- C5 counterexample: on an OS outside {Linux, SunOS, Darwin, Windows}
the locator fails with the very same `RuntimeError('no python dll')` that
the no-matching-line case produces, not with the distinct
unsupported-platform error (the one `get_q_os_letter` raises). -/
theorem get_python_dll_unknown_os_counterexample :
    get_python_dll "FreeBSD" 3 6 "/usr/bin" [] [] [] =
      .error (.runtimeError "no python dll") ∧
    get_python_dll "Linux" 3 6 "/usr/bin" [] [] [] =
      .error (.runtimeError "no python dll") ∧
    get_q_os_letter "FreeBSD" "amd64" = .error (.runtimeError
      ("\"Unknown platform: " ++ "FreeBSD" ++ " " ++ "amd64" ++ ".")) ∧
    PyErr.runtimeError "no python dll" ≠
      PyErr.runtimeError ("\"Unknown platform: " ++ "FreeBSD" ++ " " ++
        "amd64" ++ ".") := by
  refine ⟨?_, ?_, ?_, by decide⟩
  · unfold get_python_dll
    rw [if_neg (by decide), if_neg (by decide), if_neg (by decide)]
  · unfold get_python_dll
    rw [if_pos (by decide)]
    rfl
  · unfold get_q_os_letter
    rw [if_neg (by decide), if_neg (by decide), if_neg (by decide),
      if_neg (by decide)]

/-- C5 amended: on Windows the locator returns the deterministic
`python<major><minor>.dll` with no tool invocation; on Linux/SunOS, when
no `ldd` line contains `libpython` and no `ldconfig -p` line contains the
version-specific `libpython<major>.<minor>`, it fails with
`RuntimeError('no python dll')`; and on every OS outside
{Linux*, SunOS*, Darwin, Windows} it fails with that same error (there is
no distinct unsupported-platform error in this function), never returning
a default path. -/
theorem get_python_dll_spec (sysname : String) (pyMajor pyMinor : Nat)
    (execDir : String) (lddOut ldconfigOut otoolOut : List String) :
    (sysname = "Windows" →
      get_python_dll sysname pyMajor pyMinor execDir lddOut ldconfigOut
        otoolOut = .ok ("python" ++ toString pyMajor ++ toString pyMinor ++
          ".dll")) ∧
    ((List.isPrefixOf "Linux".data sysname.data ∨
        List.isPrefixOf "SunOS".data sysname.data) →
      (∀ l ∈ lddOut, containsSub "libpython".data l.data = false) →
      (∀ l ∈ ldconfigOut, containsSub ("libpython" ++ toString pyMajor ++
        "." ++ toString pyMinor).data l.data = false) →
      get_python_dll sysname pyMajor pyMinor execDir lddOut ldconfigOut
        otoolOut = .error (.runtimeError "no python dll")) ∧
    (¬ (List.isPrefixOf "Linux".data sysname.data ∨
        List.isPrefixOf "SunOS".data sysname.data) →
      sysname ≠ "Darwin" → sysname ≠ "Windows" →
      get_python_dll sysname pyMajor pyMinor execDir lddOut ldconfigOut
        otoolOut = .error (.runtimeError "no python dll")) := by
  refine ⟨?_, ?_, ?_⟩
  · intro h
    subst h
    unfold get_python_dll
    rw [if_neg (by decide), if_neg (by decide), if_pos rfl]
  · intro hlin hldd hldc
    unfold get_python_dll
    rw [if_pos hlin]
    have h1 : lddOut.find? (fun l => containsSub "libpython".data l.data) =
        none := by
      rw [List.find?_eq_none]
      intro l hl
      simp only [Bool.not_eq_true]
      exact hldd l hl
    have h2 : ldconfigOut.find? (fun l => containsSub ("libpython" ++
        toString pyMajor ++ "." ++ toString pyMinor).data l.data) = none := by
      rw [List.find?_eq_none]
      intro l hl
      simp only [Bool.not_eq_true]
      exact hldc l hl
    rw [h1, h2]
  · intro hn hd hw
    unfold get_python_dll
    rw [if_neg hn, if_neg hd, if_neg hw]

/-- Witness for C5: all three branches at concrete inputs. -/
theorem get_python_dll_spec_witness :
    get_python_dll "Windows" 3 6 "" [] [] [] =
      .ok ("python" ++ toString 3 ++ toString 6 ++ ".dll") ∧
    get_python_dll "Linux" 3 6 "" ["linux-vdso.so.1 (0x00007fff5c5d1000)"]
      [] [] = .error (.runtimeError "no python dll") ∧
    get_python_dll "FreeBSD" 3 6 "" [] [] [] =
      .error (.runtimeError "no python dll") :=
  ⟨(get_python_dll_spec "Windows" 3 6 "" [] [] []).1 rfl,
   (get_python_dll_spec "Linux" 3 6 ""
      ["linux-vdso.so.1 (0x00007fff5c5d1000)"] [] []).2.1 (by decide)
      (by decide) (by simp),
   (get_python_dll_spec "FreeBSD" 3 6 "" [] [] []).2.2 (by decide)
      (by decide) (by decide)⟩

/-- Strategy (1) of the runtime locator, in the spec's words: an explicit
QHOME naming the runtime home directly (truthy check only). -/
def qhome_strategy1 (env : String → Option String) : Prop :=
  (env "QHOME").getD "" ≠ ""

/-- Strategy (2) of the runtime locator, in the spec's words: a truthy
prefix variable whose conventional `<prefix>/q` subdirectory exists. -/
def qhome_strategy2 (env : String → Option String) (isdir : String → Bool)
    (v : String) : Prop :=
  (env v).getD "" ≠ "" ∧ isdir (joinPath ((env v).getD "") "q") = true

/-- Strategy (3) of the runtime locator, in the spec's words: on Windows,
the fixed `\q` path under the system drive exists. -/
def qhome_strategy3 (windows : Bool) (env : String → Option String)
    (isdir : String → Bool) : Prop :=
  windows = true ∧ isdir (((env "SystemDrive").getD "") ++ "\\q") = true

/-- Decomposing the failure of strategy (2) for one prefix variable. -/
lemma strategy2_false_cases (env : String → Option String)
    (isdir : String → Bool) (v : String)
    (h : ¬ qhome_strategy2 env isdir v) :
    (env v).getD "" = "" ∨
      isdir (joinPath ((env v).getD "") "q") = false := by
  by_cases hv : (env v).getD "" = ""
  · exact Or.inl hv
  · right
    cases hx : isdir (joinPath ((env v).getD "") "q") with
    | true => exact absurd ⟨hv, hx⟩ h
    | false => rfl

/-- The prefix loop yields nothing when both prefix strategies fail. -/
lemma q_home_from_prefixes_none (env : String → Option String)
    (isdir : String → Bool)
    (h2v : (env "VIRTUAL_ENV").getD "" = "" ∨
      isdir (joinPath ((env "VIRTUAL_ENV").getD "") "q") = false)
    (h2h : (env "HOME").getD "" = "" ∨
      isdir (joinPath ((env "HOME").getD "") "q") = false) :
    q_home_from_prefixes env isdir ["VIRTUAL_ENV", "HOME"] = none := by
  rcases h2v with hv | hv <;> rcases h2h with hh | hh <;>
    simp [q_home_from_prefixes, hv, hh]

/-- C2: the runtime locator tries QHOME first, then VIRTUAL_ENV/q, then
HOME/q (each accepted only when a directory), then on Windows the system
drive's `\q`, and raises `RuntimeError('No suitable QHOME.')` exactly when
every strategy fails (assuming SystemDrive is defined on Windows, as it
always is). -/
theorem get_q_home_order_and_error (windows : Bool)
    (env : String → Option String) (isdir : String → Bool)
    (hsd : windows = true → (env "SystemDrive").isSome = true) :
    (qhome_strategy1 env →
      get_q_home windows env isdir = .ok ((env "QHOME").getD "")) ∧
    (¬ qhome_strategy1 env → qhome_strategy2 env isdir "VIRTUAL_ENV" →
      get_q_home windows env isdir =
        .ok (joinPath ((env "VIRTUAL_ENV").getD "") "q")) ∧
    (¬ qhome_strategy1 env → ¬ qhome_strategy2 env isdir "VIRTUAL_ENV" →
      qhome_strategy2 env isdir "HOME" →
      get_q_home windows env isdir =
        .ok (joinPath ((env "HOME").getD "") "q")) ∧
    (¬ qhome_strategy1 env → ¬ qhome_strategy2 env isdir "VIRTUAL_ENV" →
      ¬ qhome_strategy2 env isdir "HOME" →
      qhome_strategy3 windows env isdir →
      get_q_home windows env isdir =
        .ok (((env "SystemDrive").getD "") ++ "\\q")) ∧
    (get_q_home windows env isdir =
        .error (.runtimeError "No suitable QHOME.") ↔
      ¬ qhome_strategy1 env ∧ ¬ qhome_strategy2 env isdir "VIRTUAL_ENV" ∧
        ¬ qhome_strategy2 env isdir "HOME" ∧
        ¬ qhome_strategy3 windows env isdir) := by
  have h1case : qhome_strategy1 env →
      get_q_home windows env isdir = .ok ((env "QHOME").getD "") := by
    intro h
    unfold qhome_strategy1 at h
    simp [get_q_home, h]
  have h2case : ¬ qhome_strategy1 env →
      qhome_strategy2 env isdir "VIRTUAL_ENV" →
      get_q_home windows env isdir =
        .ok (joinPath ((env "VIRTUAL_ENV").getD "") "q") := by
    intro n1 hs
    obtain ⟨hv, hvd⟩ := hs
    have h1 := not_ne_iff.mp n1
    simp [get_q_home, h1, q_home_from_prefixes, hv, hvd]
  have h3case : ¬ qhome_strategy1 env →
      ¬ qhome_strategy2 env isdir "VIRTUAL_ENV" →
      qhome_strategy2 env isdir "HOME" →
      get_q_home windows env isdir =
        .ok (joinPath ((env "HOME").getD "") "q") := by
    intro n1 n2 hs
    obtain ⟨hh, hhd⟩ := hs
    have h1 := not_ne_iff.mp n1
    rcases strategy2_false_cases env isdir "VIRTUAL_ENV" n2 with hv | hv <;>
      simp [get_q_home, h1, q_home_from_prefixes, hv, hh, hhd]
  have h4case : ¬ qhome_strategy1 env →
      ¬ qhome_strategy2 env isdir "VIRTUAL_ENV" →
      ¬ qhome_strategy2 env isdir "HOME" →
      qhome_strategy3 windows env isdir →
      get_q_home windows env isdir =
        .ok (((env "SystemDrive").getD "") ++ "\\q") := by
    intro n1 n2 n3 hs
    obtain ⟨hw, hdd⟩ := hs
    have h1 := not_ne_iff.mp n1
    have hloop := q_home_from_prefixes_none env isdir
      (strategy2_false_cases env isdir "VIRTUAL_ENV" n2)
      (strategy2_false_cases env isdir "HOME" n3)
    obtain ⟨d, hd⟩ := Option.isSome_iff_exists.mp (hsd hw)
    rw [hd] at hdd
    simp only [Option.getD_some] at hdd
    simp [get_q_home, h1, hloop, hw, hd, hdd]
  have herrcase : ¬ qhome_strategy1 env →
      ¬ qhome_strategy2 env isdir "VIRTUAL_ENV" →
      ¬ qhome_strategy2 env isdir "HOME" →
      ¬ qhome_strategy3 windows env isdir →
      get_q_home windows env isdir =
        .error (.runtimeError "No suitable QHOME.") := by
    intro n1 n2 n3 n4
    have h1 := not_ne_iff.mp n1
    have hloop := q_home_from_prefixes_none env isdir
      (strategy2_false_cases env isdir "VIRTUAL_ENV" n2)
      (strategy2_false_cases env isdir "HOME" n3)
    cases hw : windows with
    | false => simp [get_q_home, h1, hloop, hw]
    | true =>
      obtain ⟨d, hd⟩ := Option.isSome_iff_exists.mp (hsd hw)
      have hdd : isdir (d ++ "\\q") = false := by
        cases hx : isdir (d ++ "\\q") with
        | true =>
          refine absurd ⟨hw, ?_⟩ n4
          rw [hd]
          simpa using hx
        | false => rfl
      simp [get_q_home, h1, hloop, hw, hd, hdd]
  refine ⟨h1case, h2case, h3case, h4case, ?_, ?_⟩
  · intro herr
    by_cases c1 : qhome_strategy1 env
    · rw [h1case c1] at herr
      simp at herr
    by_cases c2 : qhome_strategy2 env isdir "VIRTUAL_ENV"
    · rw [h2case c1 c2] at herr
      simp at herr
    by_cases c3 : qhome_strategy2 env isdir "HOME"
    · rw [h3case c1 c2 c3] at herr
      simp at herr
    by_cases c4 : qhome_strategy3 windows env isdir
    · rw [h4case c1 c2 c3 c4] at herr
      simp at herr
    exact ⟨c1, c2, c3, c4⟩
  · rintro ⟨n1, n2, n3, n4⟩
    exact herrcase n1 n2 n3 n4

/-- Witness for C2: QHOME unset, VIRTUAL_ENV unset, HOME=/home/u, and
/home/u/q a directory, so the locator returns /home/u/q. -/
theorem get_q_home_order_and_error_witness :
    get_q_home false (fun k => if k = "HOME" then some "/home/u" else none)
      (fun p => p == "/home/u/q") = .ok (joinPath "/home/u" "q") := by
  have h := (get_q_home_order_and_error false
      (fun k => if k = "HOME" then some "/home/u" else none)
      (fun p => p == "/home/u/q") (fun hw => nomatch hw)).2.2.1
    (fun hs => hs (by decide)) (fun hs => hs.1 (by decide))
    ⟨by decide, by decide⟩
  exact h

/-- C7: `Config.run` leaves the option state unchanged; without `--write`
no file is written; with `--write` it writes the deterministic
serialization whose key=value lines are exactly the four keys, and the
spec-side reader recovers each of the four discovered values exactly
(round-trip), provided the values are newline-free (as paths and version
tokens are). -/
theorem config_run_spec (c : ConfigOpts)
    (hh : '\n' ∉ c.q_home.data) (hv : '\n' ∉ c.q_version.data)
    (ha : '\n' ∉ c.q_arch.data) (hp : '\n' ∉ c.python_dll.data) :
    ((config_run c).1 = c) ∧
    (c.write = false → (config_run c).2 = none) ∧
    (c.write = true → (config_run c).2 =
      some (c.dest, setup_cfg c.q_home c.q_version c.q_arch c.python_dll)) ∧
    (splitOnChar '\n' (setup_cfg c.q_home c.q_version c.q_arch
        c.python_dll).data =
      ["[config]".data,
       "q_home = ".data ++ c.q_home.data,
       "q_version = ".data ++ c.q_version.data,
       "q_arch = ".data ++ c.q_arch.data,
       "python_dll = ".data ++ c.python_dll.data,
       []]) ∧
    cfg_lookup "q_home" (setup_cfg c.q_home c.q_version c.q_arch
      c.python_dll) = some c.q_home ∧
    cfg_lookup "q_version" (setup_cfg c.q_home c.q_version c.q_arch
      c.python_dll) = some c.q_version ∧
    cfg_lookup "q_arch" (setup_cfg c.q_home c.q_version c.q_arch
      c.python_dll) = some c.q_arch ∧
    cfg_lookup "python_dll" (setup_cfg c.q_home c.q_version c.q_arch
      c.python_dll) = some c.python_dll := by
  have hdata : (setup_cfg c.q_home c.q_version c.q_arch c.python_dll).data =
      "[config]".data ++ '\n' :: (("q_home = ".data ++ c.q_home.data) ++
        '\n' :: (("q_version = ".data ++ c.q_version.data) ++
          '\n' :: (("q_arch = ".data ++ c.q_arch.data) ++
            '\n' :: (("python_dll = ".data ++ c.python_dll.data) ++
              '\n' :: ([] : List Char))))) := by
    simp only [setup_cfg, String.data_append]
    simp [List.append_assoc, List.cons_append]
  have hmem1 : ('\n' : Char) ∉ "q_home = ".data ++ c.q_home.data := by
    intro hm
    rcases List.mem_append.mp hm with h' | h'
    · revert h'; decide
    · exact hh h'
  have hmem2 : ('\n' : Char) ∉ "q_version = ".data ++ c.q_version.data := by
    intro hm
    rcases List.mem_append.mp hm with h' | h'
    · revert h'; decide
    · exact hv h'
  have hmem3 : ('\n' : Char) ∉ "q_arch = ".data ++ c.q_arch.data := by
    intro hm
    rcases List.mem_append.mp hm with h' | h'
    · revert h'; decide
    · exact ha h'
  have hmem4 : ('\n' : Char) ∉ "python_dll = ".data ++ c.python_dll.data := by
    intro hm
    rcases List.mem_append.mp hm with h' | h'
    · revert h'; decide
    · exact hp h'
  have hsplit : splitOnChar '\n' (setup_cfg c.q_home c.q_version c.q_arch
      c.python_dll).data =
      ["[config]".data,
       "q_home = ".data ++ c.q_home.data,
       "q_version = ".data ++ c.q_version.data,
       "q_arch = ".data ++ c.q_arch.data,
       "python_dll = ".data ++ c.python_dll.data,
       []] := by
    rw [hdata,
      splitOnChar_append_sep '\n' "[config]".data _ (by decide),
      splitOnChar_append_sep '\n' _ _ hmem1,
      splitOnChar_append_sep '\n' _ _ hmem2,
      splitOnChar_append_sep '\n' _ _ hmem3,
      splitOnChar_append_sep '\n' _ _ hmem4]
    rfl
  have lhome : cfg_lookup "q_home" (setup_cfg c.q_home c.q_version c.q_arch
      c.python_dll) = some c.q_home := by
    unfold cfg_lookup
    rw [hsplit]
    rw [List.find?_cons_of_neg _ (by decide)]
    rw [List.find?_cons_of_pos _ (by
      show List.isPrefixOf ("q_home".data ++ " = ".data) _ = true
      rw [show "q_home".data ++ " = ".data = "q_home = ".data from by decide]
      exact isPrefixOf_append_self _ _)]
    show some (String.mk (("q_home = ".data ++ c.q_home.data).drop
      ("q_home".data.length + " = ".data.length))) = _
    rw [show "q_home".data.length + " = ".data.length =
          "q_home = ".data.length from by decide,
        List.drop_left]
  have lver : cfg_lookup "q_version" (setup_cfg c.q_home c.q_version
      c.q_arch c.python_dll) = some c.q_version := by
    unfold cfg_lookup
    rw [hsplit]
    rw [List.find?_cons_of_neg _ (by decide)]
    rw [List.find?_cons_of_neg _ (by
      simp [show List.isPrefixOf ("q_version".data ++ " = ".data)
        ("q_home = ".data ++ c.q_home.data) = false from rfl])]
    rw [List.find?_cons_of_pos _ (by
      show List.isPrefixOf ("q_version".data ++ " = ".data) _ = true
      rw [show "q_version".data ++ " = ".data = "q_version = ".data from
        by decide]
      exact isPrefixOf_append_self _ _)]
    show some (String.mk (("q_version = ".data ++ c.q_version.data).drop
      ("q_version".data.length + " = ".data.length))) = _
    rw [show "q_version".data.length + " = ".data.length =
          "q_version = ".data.length from by decide,
        List.drop_left]
  have larch : cfg_lookup "q_arch" (setup_cfg c.q_home c.q_version c.q_arch
      c.python_dll) = some c.q_arch := by
    unfold cfg_lookup
    rw [hsplit]
    rw [List.find?_cons_of_neg _ (by decide)]
    rw [List.find?_cons_of_neg _ (by
      simp [show List.isPrefixOf ("q_arch".data ++ " = ".data)
        ("q_home = ".data ++ c.q_home.data) = false from rfl])]
    rw [List.find?_cons_of_neg _ (by
      simp [show List.isPrefixOf ("q_arch".data ++ " = ".data)
        ("q_version = ".data ++ c.q_version.data) = false from rfl])]
    rw [List.find?_cons_of_pos _ (by
      show List.isPrefixOf ("q_arch".data ++ " = ".data) _ = true
      rw [show "q_arch".data ++ " = ".data = "q_arch = ".data from by decide]
      exact isPrefixOf_append_self _ _)]
    show some (String.mk (("q_arch = ".data ++ c.q_arch.data).drop
      ("q_arch".data.length + " = ".data.length))) = _
    rw [show "q_arch".data.length + " = ".data.length =
          "q_arch = ".data.length from by decide,
        List.drop_left]
  have ldll : cfg_lookup "python_dll" (setup_cfg c.q_home c.q_version
      c.q_arch c.python_dll) = some c.python_dll := by
    unfold cfg_lookup
    rw [hsplit]
    rw [List.find?_cons_of_neg _ (by decide)]
    rw [List.find?_cons_of_neg _ (by
      simp [show List.isPrefixOf ("python_dll".data ++ " = ".data)
        ("q_home = ".data ++ c.q_home.data) = false from rfl])]
    rw [List.find?_cons_of_neg _ (by
      simp [show List.isPrefixOf ("python_dll".data ++ " = ".data)
        ("q_version = ".data ++ c.q_version.data) = false from rfl])]
    rw [List.find?_cons_of_neg _ (by
      simp [show List.isPrefixOf ("python_dll".data ++ " = ".data)
        ("q_arch = ".data ++ c.q_arch.data) = false from rfl])]
    rw [List.find?_cons_of_pos _ (by
      show List.isPrefixOf ("python_dll".data ++ " = ".data) _ = true
      rw [show "python_dll".data ++ " = ".data = "python_dll = ".data from
        by decide]
      exact isPrefixOf_append_self _ _)]
    show some (String.mk (("python_dll = ".data ++ c.python_dll.data).drop
      ("python_dll".data.length + " = ".data.length))) = _
    rw [show "python_dll".data.length + " = ".data.length =
          "python_dll = ".data.length from by decide,
        List.drop_left]
  refine ⟨rfl, ?_, ?_, hsplit, lhome, lver, larch, ldll⟩
  · intro hw
    simp [config_run, hw]
  · intro hw
    simp [config_run, hw]

/-- Witness for C7: a concrete finalized configuration round-trips. -/
theorem config_run_spec_witness :
    (config_run ⟨"/home/u/q", "3.6", "l64", "/usr/lib/libpython3.6m.so",
        "setup.cfg", false⟩).2 = none ∧
    cfg_lookup "q_version" (setup_cfg "/home/u/q" "3.6" "l64"
      "/usr/lib/libpython3.6m.so") = some "3.6" ∧
    cfg_lookup "python_dll" (setup_cfg "/home/u/q" "3.6" "l64"
      "/usr/lib/libpython3.6m.so") = some "/usr/lib/libpython3.6m.so" := by
  have h := config_run_spec ⟨"/home/u/q", "3.6", "l64",
    "/usr/lib/libpython3.6m.so", "setup.cfg", false⟩
    (by decide) (by decide) (by decide) (by decide)
  exact ⟨h.2.1 rfl, h.2.2.2.2.2.1, h.2.2.2.2.2.2.2⟩
